import Mathlib

/-!
# The declaration surface of `cimgui_impl.h`

`src/thirdparty/cimgui_generated/cimgui_impl.h` is a generated C header: it has no
executable code, only preprocessor directives, type declarations and function
prototypes.  The development below embeds the header as a value of a small abstract
syntax of C file-scope items (one Lean definition per source item, under the source's
name, in source order) and proves the properties of that declaration surface.
-/

namespace CImguiImpl

/-! ## Abstract syntax of the C file-scope items the header is written in -/

/-- The keyword of an elaborated type specifier: `struct`, `union` or `enum`. -/
inductive TagKind
  | structK
  | unionK
  | enumK
  deriving DecidableEq

/-- A non-function C type as the header writes it: an optional `const`, an optional
`struct`/`union`/`enum` keyword, the type name, and the number of `*` after it. -/
structure BaseType where
  isConst : Bool
  keyword : Option TagKind
  name : String
  stars : Nat
  deriving DecidableEq

/-- A parameter of a function-pointer type: `const char* function_name`. -/
structure Param where
  ty : BaseType
  name : String
  deriving DecidableEq

/-- The type of a declarator: an object type, or a pointer to function
`ret (*name)(params)`. -/
inductive CType
  | obj (t : BaseType)
  | fnPtr (ret : BaseType) (params : List Param)
  deriving DecidableEq

/-- A struct field or a function parameter: a type and the declared name. -/
structure Decl where
  ty : CType
  name : String
  deriving DecidableEq

/-- A prototype's parameter list: the explicit empty list `(void)`, or declarators. -/
inductive ParamList
  | void
  | params (ps : List Decl)
  deriving DecidableEq

/-- A function declarator: the leading attribute token (`CIMGUI_API` throughout this
header), the return type, the name and the parameter list. -/
structure FuncDecl where
  attr : String
  ret : BaseType
  name : String
  params : ParamList
  deriving DecidableEq

/-- One enumerator of an `enum`, with its explicit initialiser when it has one. -/
structure Enumerator where
  name : String
  init : Option Int
  deriving DecidableEq

/-- A file-scope item of a C source file.  The last two constructors (a function
definition with a body, a file-scope variable) are part of the C grammar although the
header uses neither. -/
inductive Item
  | directive (text : String)
  | typedefTag (k : TagKind) (tag : String) (name : String)
  | tagDecl (k : TagKind) (tag : String)
  | typedefEnum (enumerators : List Enumerator) (name : String)
  | structDef (tag : String) (fields : List Decl)
  | prototype (f : FuncDecl)
  | funcDef (f : FuncDecl) (body : String)
  | varDecl (d : Decl)
  deriving DecidableEq

/-! ### Shorthands for the type spellings that occur in the header -/

/-- The type `T`. -/
def ty (n : String) : BaseType := ⟨false, none, n, 0⟩

/-- The type `T*`. -/
def ptr (n : String) : BaseType := ⟨false, none, n, 1⟩

/-- The type `const T*`. -/
def constPtr (n : String) : BaseType := ⟨true, none, n, 1⟩

/-- A field or parameter `T name`. -/
def val (t : String) (n : String) : Decl := ⟨.obj (ty t), n⟩

/-- A field or parameter `T* name`. -/
def ref (t : String) (n : String) : Decl := ⟨.obj (ptr t), n⟩

/-- A field or parameter `const T* name`. -/
def cref (t : String) (n : String) : Decl := ⟨.obj (constPtr t), n⟩

/-- A prototype `CIMGUI_API ret name(params);`. -/
def api (ret : BaseType) (n : String) (ps : ParamList) : FuncDecl :=
  ⟨"CIMGUI_API", ret, n, ps⟩

/-! ## The header, item by item (line numbers are those of `cimgui_impl.h`) -/

/-- Line 11: `typedef enum { ..._AutoFirst, ..._AutoAll, ..._Manual }ImGui_ImplSDL2_GamepadMode;` -/
def ImGui_ImplSDL2_GamepadMode : List Enumerator :=
  [ ⟨"ImGui_ImplSDL2_GamepadMode_AutoFirst", none⟩,
    ⟨"ImGui_ImplSDL2_GamepadMode_AutoAll", none⟩,
    ⟨"ImGui_ImplSDL2_GamepadMode_Manual", none⟩ ]

/-- Line 12. -/
def ImGui_ImplSDL2_InitForOpenGL : FuncDecl :=
  api (ty "bool") "ImGui_ImplSDL2_InitForOpenGL"
    (.params [ref "SDL_Window" "window", ref "void" "sdl_gl_context"])

/-- Line 13. -/
def ImGui_ImplSDL2_InitForVulkan : FuncDecl :=
  api (ty "bool") "ImGui_ImplSDL2_InitForVulkan" (.params [ref "SDL_Window" "window"])

/-- Line 14. -/
def ImGui_ImplSDL2_InitForD3D : FuncDecl :=
  api (ty "bool") "ImGui_ImplSDL2_InitForD3D" (.params [ref "SDL_Window" "window"])

/-- Line 15. -/
def ImGui_ImplSDL2_InitForMetal : FuncDecl :=
  api (ty "bool") "ImGui_ImplSDL2_InitForMetal" (.params [ref "SDL_Window" "window"])

/-- Line 16. -/
def ImGui_ImplSDL2_InitForSDLRenderer : FuncDecl :=
  api (ty "bool") "ImGui_ImplSDL2_InitForSDLRenderer"
    (.params [ref "SDL_Window" "window", ref "SDL_Renderer" "renderer"])

/-- Line 17. -/
def ImGui_ImplSDL2_InitForOther : FuncDecl :=
  api (ty "bool") "ImGui_ImplSDL2_InitForOther" (.params [ref "SDL_Window" "window"])

/-- Line 18. -/
def ImGui_ImplSDL2_Shutdown : FuncDecl :=
  api (ty "void") "ImGui_ImplSDL2_Shutdown" .void

/-- Line 19. -/
def ImGui_ImplSDL2_NewFrame : FuncDecl :=
  api (ty "void") "ImGui_ImplSDL2_NewFrame" .void

/-- Line 20. -/
def ImGui_ImplSDL2_ProcessEvent : FuncDecl :=
  api (ty "bool") "ImGui_ImplSDL2_ProcessEvent" (.params [cref "SDL_Event" "event"])

/-- Line 21: the second parameter is `struct _SDL_GameController** manual_gamepads_array`. -/
def ImGui_ImplSDL2_SetGamepadMode : FuncDecl :=
  api (ty "void") "ImGui_ImplSDL2_SetGamepadMode"
    (.params [ val "ImGui_ImplSDL2_GamepadMode" "mode",
               ⟨.obj ⟨false, some .structK, "_SDL_GameController", 2⟩, "manual_gamepads_array"⟩,
               val "int" "manual_gamepads_count" ])

/-- Lines 26-45. -/
def ImGui_ImplVulkan_InitInfo : List Decl :=
  [ val "VkInstance" "Instance",
    val "VkPhysicalDevice" "PhysicalDevice",
    val "VkDevice" "Device",
    val "uint32_t" "QueueFamily",
    val "VkQueue" "Queue",
    val "VkDescriptorPool" "DescriptorPool",
    val "VkRenderPass" "RenderPass",
    val "uint32_t" "MinImageCount",
    val "uint32_t" "ImageCount",
    val "VkSampleCountFlagBits" "MSAASamples",
    val "VkPipelineCache" "PipelineCache",
    val "uint32_t" "Subpass",
    val "bool" "UseDynamicRendering",
    val "VkPipelineRenderingCreateInfoKHR" "PipelineRenderingCreateInfo",
    cref "VkAllocationCallbacks" "Allocator",
    ⟨.fnPtr (ty "void") [⟨ty "VkResult", "err"⟩], "CheckVkResultFn"⟩,
    val "VkDeviceSize" "MinAllocationSize" ]

/-- Lines 48-56. -/
def ImGui_ImplVulkanH_Frame : List Decl :=
  [ val "VkCommandPool" "CommandPool",
    val "VkCommandBuffer" "CommandBuffer",
    val "VkFence" "Fence",
    val "VkImage" "Backbuffer",
    val "VkImageView" "BackbufferView",
    val "VkFramebuffer" "Framebuffer" ]

/-- Lines 58-62. -/
def ImGui_ImplVulkanH_FrameSemaphores : List Decl :=
  [ val "VkSemaphore" "ImageAcquiredSemaphore",
    val "VkSemaphore" "RenderCompleteSemaphore" ]

/-- Lines 63-81. -/
def ImGui_ImplVulkanH_Window : List Decl :=
  [ val "int" "Width",
    val "int" "Height",
    val "VkSwapchainKHR" "Swapchain",
    val "VkSurfaceKHR" "Surface",
    val "VkSurfaceFormatKHR" "SurfaceFormat",
    val "VkPresentModeKHR" "PresentMode",
    val "VkRenderPass" "RenderPass",
    val "bool" "UseDynamicRendering",
    val "bool" "ClearEnable",
    val "VkClearValue" "ClearValue",
    val "uint32_t" "FrameIndex",
    val "uint32_t" "ImageCount",
    val "uint32_t" "SemaphoreCount",
    val "uint32_t" "SemaphoreIndex",
    ref "ImGui_ImplVulkanH_Frame" "Frames",
    ref "ImGui_ImplVulkanH_FrameSemaphores" "FrameSemaphores" ]

/-- Line 82. -/
def ImGui_ImplVulkan_Init : FuncDecl :=
  api (ty "bool") "ImGui_ImplVulkan_Init" (.params [ref "ImGui_ImplVulkan_InitInfo" "info"])

/-- Line 83. -/
def ImGui_ImplVulkan_Shutdown : FuncDecl :=
  api (ty "void") "ImGui_ImplVulkan_Shutdown" .void

/-- Line 84. -/
def ImGui_ImplVulkan_NewFrame : FuncDecl :=
  api (ty "void") "ImGui_ImplVulkan_NewFrame" .void

/-- Line 85. -/
def ImGui_ImplVulkan_RenderDrawData : FuncDecl :=
  api (ty "void") "ImGui_ImplVulkan_RenderDrawData"
    (.params [ ref "ImDrawData" "draw_data",
               val "VkCommandBuffer" "command_buffer",
               val "VkPipeline" "pipeline" ])

/-- Line 86. -/
def ImGui_ImplVulkan_CreateFontsTexture : FuncDecl :=
  api (ty "bool") "ImGui_ImplVulkan_CreateFontsTexture" .void

/-- Line 87. -/
def ImGui_ImplVulkan_DestroyFontsTexture : FuncDecl :=
  api (ty "void") "ImGui_ImplVulkan_DestroyFontsTexture" .void

/-- Line 88. -/
def ImGui_ImplVulkan_SetMinImageCount : FuncDecl :=
  api (ty "void") "ImGui_ImplVulkan_SetMinImageCount"
    (.params [val "uint32_t" "min_image_count"])

/-- Line 89. -/
def ImGui_ImplVulkan_AddTexture : FuncDecl :=
  api (ty "VkDescriptorSet") "ImGui_ImplVulkan_AddTexture"
    (.params [ val "VkSampler" "sampler",
               val "VkImageView" "image_view",
               val "VkImageLayout" "image_layout" ])

/-- Line 90. -/
def ImGui_ImplVulkan_RemoveTexture : FuncDecl :=
  api (ty "void") "ImGui_ImplVulkan_RemoveTexture"
    (.params [val "VkDescriptorSet" "descriptor_set"])

/-- Line 91: the first parameter is the function pointer
`PFN_vkVoidFunction(*loader_func)(const char* function_name,void* user_data)`. -/
def ImGui_ImplVulkan_LoadFunctions : FuncDecl :=
  api (ty "bool") "ImGui_ImplVulkan_LoadFunctions"
    (.params [ ⟨.fnPtr (ty "PFN_vkVoidFunction")
                  [⟨constPtr "char", "function_name"⟩, ⟨ptr "void", "user_data"⟩],
                "loader_func"⟩,
               ref "void" "user_data" ])

/-- Line 92. -/
def ImGui_ImplVulkanH_CreateOrResizeWindow : FuncDecl :=
  api (ty "void") "ImGui_ImplVulkanH_CreateOrResizeWindow"
    (.params [ val "VkInstance" "instance",
               val "VkPhysicalDevice" "physical_device",
               val "VkDevice" "device",
               ref "ImGui_ImplVulkanH_Window" "wd",
               val "uint32_t" "queue_family",
               cref "VkAllocationCallbacks" "allocator",
               val "int" "w",
               val "int" "h",
               val "uint32_t" "min_image_count" ])

/-- Line 93. -/
def ImGui_ImplVulkanH_DestroyWindow : FuncDecl :=
  api (ty "void") "ImGui_ImplVulkanH_DestroyWindow"
    (.params [ val "VkInstance" "instance",
               val "VkDevice" "device",
               ref "ImGui_ImplVulkanH_Window" "wd",
               cref "VkAllocationCallbacks" "allocator" ])

/-- Line 94. -/
def ImGui_ImplVulkanH_SelectSurfaceFormat : FuncDecl :=
  api (ty "VkSurfaceFormatKHR") "ImGui_ImplVulkanH_SelectSurfaceFormat"
    (.params [ val "VkPhysicalDevice" "physical_device",
               val "VkSurfaceKHR" "surface",
               cref "VkFormat" "request_formats",
               val "int" "request_formats_count",
               val "VkColorSpaceKHR" "request_color_space" ])

/-- Line 95. -/
def ImGui_ImplVulkanH_SelectPresentMode : FuncDecl :=
  api (ty "VkPresentModeKHR") "ImGui_ImplVulkanH_SelectPresentMode"
    (.params [ val "VkPhysicalDevice" "physical_device",
               val "VkSurfaceKHR" "surface",
               cref "VkPresentModeKHR" "request_modes",
               val "int" "request_modes_count" ])

/-- Line 96. -/
def ImGui_ImplVulkanH_GetMinImageCountFromPresentMode : FuncDecl :=
  api (ty "int") "ImGui_ImplVulkanH_GetMinImageCountFromPresentMode"
    (.params [val "VkPresentModeKHR" "present_mode"])

/-- The whole of `cimgui_impl.h`: its file-scope items in source order. -/
def cimgui_impl : List Item :=
  [ .directive "#include <SDL2/SDL.h>",                                  -- line 1
    .directive "#include <vulkan/vulkan.h>",                             -- line 2
    .typedefTag .structK "SDL_Window" "SDL_Window",                      -- line 4
    .typedefTag .structK "SDL_Renderer" "SDL_Renderer",                  -- line 5
    .typedefTag .structK "_SDL_GameController" "_SDL_GameController",    -- line 6
    .tagDecl .structK "SDL_Window",                                      -- line 7
    .tagDecl .structK "SDL_Renderer",                                    -- line 8
    .tagDecl .structK "_SDL_GameController",                             -- line 9
    .typedefTag .unionK "SDL_Event" "SDL_Event",                         -- line 10
    .typedefEnum ImGui_ImplSDL2_GamepadMode "ImGui_ImplSDL2_GamepadMode", -- line 11
    .prototype ImGui_ImplSDL2_InitForOpenGL,
    .prototype ImGui_ImplSDL2_InitForVulkan,
    .prototype ImGui_ImplSDL2_InitForD3D,
    .prototype ImGui_ImplSDL2_InitForMetal,
    .prototype ImGui_ImplSDL2_InitForSDLRenderer,
    .prototype ImGui_ImplSDL2_InitForOther,
    .prototype ImGui_ImplSDL2_Shutdown,
    .prototype ImGui_ImplSDL2_NewFrame,
    .prototype ImGui_ImplSDL2_ProcessEvent,
    .prototype ImGui_ImplSDL2_SetGamepadMode,
    .typedefTag .structK "ImGui_ImplVulkanH_Frame" "ImGui_ImplVulkanH_Frame",     -- line 23
    .typedefTag .structK "ImGui_ImplVulkanH_Window" "ImGui_ImplVulkanH_Window",   -- line 24
    .typedefTag .structK "ImGui_ImplVulkan_InitInfo" "ImGui_ImplVulkan_InitInfo", -- line 25
    .structDef "ImGui_ImplVulkan_InitInfo" ImGui_ImplVulkan_InitInfo,             -- lines 26-45
    .tagDecl .structK "ImGui_ImplVulkanH_Frame",                                  -- line 46
    .tagDecl .structK "ImGui_ImplVulkanH_Window",                                 -- line 47
    .structDef "ImGui_ImplVulkanH_Frame" ImGui_ImplVulkanH_Frame,                 -- lines 48-56
    .typedefTag .structK "ImGui_ImplVulkanH_FrameSemaphores"
      "ImGui_ImplVulkanH_FrameSemaphores",                                        -- line 57
    .structDef "ImGui_ImplVulkanH_FrameSemaphores" ImGui_ImplVulkanH_FrameSemaphores, -- 58-62
    .structDef "ImGui_ImplVulkanH_Window" ImGui_ImplVulkanH_Window,               -- lines 63-81
    .prototype ImGui_ImplVulkan_Init,
    .prototype ImGui_ImplVulkan_Shutdown,
    .prototype ImGui_ImplVulkan_NewFrame,
    .prototype ImGui_ImplVulkan_RenderDrawData,
    .prototype ImGui_ImplVulkan_CreateFontsTexture,
    .prototype ImGui_ImplVulkan_DestroyFontsTexture,
    .prototype ImGui_ImplVulkan_SetMinImageCount,
    .prototype ImGui_ImplVulkan_AddTexture,
    .prototype ImGui_ImplVulkan_RemoveTexture,
    .prototype ImGui_ImplVulkan_LoadFunctions,
    .prototype ImGui_ImplVulkanH_CreateOrResizeWindow,
    .prototype ImGui_ImplVulkanH_DestroyWindow,
    .prototype ImGui_ImplVulkanH_SelectSurfaceFormat,
    .prototype ImGui_ImplVulkanH_SelectPresentMode,
    .prototype ImGui_ImplVulkanH_GetMinImageCountFromPresentMode ]

/-! ## Queries over a header -/

/-- The function prototypes (declarations without a body) of a file, in order. -/
def prototypes : List Item → List FuncDecl
  | [] => []
  | .prototype f :: is => f :: prototypes is
  | _ :: is => prototypes is

/-- The functions a file defines with a body. -/
def definedFunctions : List Item → List FuncDecl
  | [] => []
  | .funcDef f _ :: is => f :: definedFunctions is
  | _ :: is => definedFunctions is

/-- The file-scope variables of a file. -/
def globals : List Item → List Decl
  | [] => []
  | .varDecl d :: is => d :: globals is
  | _ :: is => globals is

/-- The structs a file defines with a field list: tag and fields. -/
def structDefs : List Item → List (String × List Decl)
  | [] => []
  | .structDef t fs :: is => (t, fs) :: structDefs is
  | _ :: is => structDefs is

/-- The enumerations a file defines: typedef name and enumerators. -/
def enums : List Item → List (String × List Enumerator)
  | [] => []
  | .typedefEnum es n :: is => (n, es) :: enums is
  | _ :: is => enums is

/-- C enumerator numbering: an enumerator with an initialiser takes that value, one
without takes the running value; the running value starts at 0 and is one more than
the previous enumerator's value. -/
def enumValuesFrom : Int → List Enumerator → List (String × Int)
  | _, [] => []
  | next, e :: es =>
    let v := e.init.getD next
    (e.name, v) :: enumValuesFrom (v + 1) es

/-- The integer value of each enumerator of an enumeration. -/
def enumValues (es : List Enumerator) : List (String × Int) :=
  enumValuesFrom 0 es

/-! ### Types mentioned by an item -/

/-- The object types a declarator type is built from: the type itself, or the return
and parameter types of a function pointer. -/
def CType.parts : CType → List BaseType
  | .obj t => [t]
  | .fnPtr r ps => r :: ps.map (fun p => p.ty)

/-- The object types a parameter list is built from (`(void)` declares no parameter). -/
def ParamList.parts : ParamList → List BaseType
  | .void => []
  | .params ps => (ps.map (fun d => d.ty.parts)).flatten

/-- The object types of a function declarator: return type first, then parameters. -/
def FuncDecl.parts (f : FuncDecl) : List BaseType :=
  f.ret :: f.params.parts

/-- Every place of an item where a type is used: field types of a struct definition,
return and parameter types of a function, the type of a variable. -/
def Item.typeUses : Item → List BaseType
  | .directive _ => []
  | .typedefTag _ _ _ => []
  | .tagDecl _ _ => []
  | .typedefEnum _ _ => []
  | .structDef _ fs => (fs.map (fun d => d.ty.parts)).flatten
  | .prototype f => f.parts
  | .funcDef f _ => f.parts
  | .varDecl d => d.ty.parts

/-- Every type name an item introduces: struct/union/enum tags and typedef names. -/
def Item.typeIntros : Item → List String
  | .typedefTag _ t n => [t, n]
  | .tagDecl _ t => [t]
  | .typedefEnum _ n => [n]
  | .structDef t _ => [t]
  | _ => []

/-- All occurrences of type names in a file, uses and introductions alike. -/
def typeOccurrences (h : List Item) : List String :=
  (h.map (fun i => i.typeIntros ++ i.typeUses.map (fun t => t.name))).flatten

/-! ### Name patterns -/

/-- The pattern `*pat*`: the name contains `pat`. -/
abbrev NameContains (pat : String) (name : String) : Prop :=
  pat.data <:+: name.data

/-- The pattern `*pat`: the name ends in `pat`. -/
abbrev NameEndsIn (pat : String) (name : String) : Prop :=
  pat.data <:+ name.data

/-- The pattern `pat*`: the name starts with `pat`. -/
abbrev NameStartsWith (pat : String) (name : String) : Prop :=
  pat.data <+: name.data

/-- The names of the prototypes of `h` whose name satisfies `p`, in source order. -/
def namesWhere (h : List Item) (p : String → Prop) [DecidablePred p] : List String :=
  ((prototypes h).filter (fun f => decide (p f.name))).map (fun f => f.name)

/-! ### Kinds of item -/

/-- An enumeration. -/
def Item.isEnum : Item → Bool
  | .typedefEnum _ _ => true
  | _ => false

/-- A forward declaration of a tag of kind `k`, or a typedef of one: no field list. -/
def Item.isForward (k : TagKind) : Item → Bool
  | .typedefTag k1 _ _ => k1 == k
  | .tagDecl k1 _ => k1 == k
  | _ => false

/-- A struct definition with a field list. -/
def Item.isStructDef : Item → Bool
  | .structDef _ _ => true
  | _ => false

/-- A function prototype (no body). -/
def Item.isPrototype : Item → Bool
  | .prototype _ => true
  | _ => false

/-- A preprocessor directive. -/
def Item.isDirective : Item → Bool
  | .directive _ => true
  | _ => false

/-- One of the four kinds of declaration: an enumeration, an opaque/forward-declared
struct (or its typedef), a struct definition, a function prototype. -/
def Item.isOfFourKinds (i : Item) : Bool :=
  i.isEnum || i.isForward .structK || i.isStructDef || i.isPrototype

/-! ### References between structs -/

/-- The typedef names of a file that stand for a tagged type: name, kind, tag. -/
def typedefs : List Item → List (String × TagKind × String)
  | [] => []
  | .typedefTag k t n :: is => (n, k, t) :: typedefs is
  | _ :: is => typedefs is

/-- The struct tag a type spelling denotes in file `h`: `struct T` denotes `T`, a plain
name denotes the struct it is a typedef of, when it is one. -/
def structTagOf (h : List Item) (t : BaseType) : Option String :=
  match t.keyword with
  | some .structK => some t.name
  | some _ => none
  | none =>
    match (typedefs h).lookup t.name with
    | some (.structK, tag) => some tag
    | _ => none

/-- The tags of the structs file `h` defines with a field list. -/
def definedStructs (h : List Item) : List String :=
  (structDefs h).map Prod.fst

/-- The struct defined in `h` that a field holds by value, when it holds one: the
field has an object type with no `*` that denotes a struct `h` defines. -/
def byValueStruct (h : List Item) (d : Decl) : Option String :=
  match d.ty with
  | .obj t =>
    match structTagOf h t with
    | some tag => if t.stars = 0 ∧ tag ∈ definedStructs h then some tag else none
    | none => none
  | .fnPtr _ _ => none

/-- The by-value containment relation of `h`: the pairs (owner, member struct) for
every field that holds a struct defined in `h` by value. -/
def containment (h : List Item) : List (String × String) :=
  ((structDefs h).map (fun s =>
    (s.2.filterMap (byValueStruct h)).map (fun tag => (s.1, tag)))).flatten

/-- Every reference from a struct defined in `h` to a struct defined in `h`: owner,
field name, the spelling of the type as written, and the struct it denotes.  Function
pointer fields are searched in their return and parameter types. -/
def structRefs (h : List Item) : List (String × String × BaseType × String) :=
  ((structDefs h).map (fun s =>
    (s.2.map (fun d =>
      d.ty.parts.filterMap (fun t =>
        match structTagOf h t with
        | some tag => if tag ∈ definedStructs h then some (s.1, d.name, t, tag) else none
        | none => none))).flatten)).flatten

set_option maxRecDepth 100000

/-! ## The return types of the declared functions -/

/-- C1, as stated, fails: `ImGui_ImplVulkan_AddTexture` (line 89) is a declared
prototype whose return type is `VkDescriptorSet`, so not every prototype returns
`bool` or `void`. -/
theorem return_type_not_always_bool_or_void :
    ImGui_ImplVulkan_AddTexture ∈ prototypes cimgui_impl ∧
    ImGui_ImplVulkan_AddTexture.ret = ty "VkDescriptorSet" ∧
    ¬ (∀ f ∈ prototypes cimgui_impl, f.ret = ty "bool" ∨ f.ret = ty "void") := by
  decide

/-- C1, amended: the header declares 25 prototypes; each returns `bool` or `void`
except exactly four, which are `ImGui_ImplVulkan_AddTexture` (`VkDescriptorSet`),
`ImGui_ImplVulkanH_SelectSurfaceFormat` (`VkSurfaceFormatKHR`),
`ImGui_ImplVulkanH_SelectPresentMode` (`VkPresentModeKHR`) and
`ImGui_ImplVulkanH_GetMinImageCountFromPresentMode` (`int`). -/
theorem return_type_bool_or_void_except_four :
    (prototypes cimgui_impl).length = 25 ∧
    (∀ f ∈ prototypes cimgui_impl,
      f.ret = ty "bool" ∨ f.ret = ty "void" ∨
      (f.name, f.ret) ∈
        [ ("ImGui_ImplVulkan_AddTexture", ty "VkDescriptorSet"),
          ("ImGui_ImplVulkanH_SelectSurfaceFormat", ty "VkSurfaceFormatKHR"),
          ("ImGui_ImplVulkanH_SelectPresentMode", ty "VkPresentModeKHR"),
          ("ImGui_ImplVulkanH_GetMinImageCountFromPresentMode", ty "int") ]) ∧
    ((prototypes cimgui_impl).filter
        (fun f => decide (f.ret ≠ ty "bool" ∧ f.ret ≠ ty "void"))).map
        (fun f => (f.name, f.ret)) =
      [ ("ImGui_ImplVulkan_AddTexture", ty "VkDescriptorSet"),
        ("ImGui_ImplVulkanH_SelectSurfaceFormat", ty "VkSurfaceFormatKHR"),
        ("ImGui_ImplVulkanH_SelectPresentMode", ty "VkPresentModeKHR"),
        ("ImGui_ImplVulkanH_GetMinImageCountFromPresentMode", ty "int") ] := by
  decide

/-! ## Where `VkResult` occurs -/

/-- C2: the type name `VkResult` occurs exactly once in the header, namely as the type
of the single parameter of the field `void (*CheckVkResultFn)(VkResult err)` of
`ImGui_ImplVulkan_InitInfo`; no prototype mentions `VkResult` in its return type or in
the type of a parameter (at any pointer depth, inside a function-pointer parameter
included), and no struct field other than `CheckVkResultFn` mentions it: in particular
no field has the object type `VkResult`. -/
theorem vkresult_only_in_callback :
    (typeOccurrences cimgui_impl).count "VkResult" = 1 ∧
    ("ImGui_ImplVulkan_InitInfo", ImGui_ImplVulkan_InitInfo) ∈ structDefs cimgui_impl ∧
    (⟨.fnPtr (ty "void") [⟨ty "VkResult", "err"⟩], "CheckVkResultFn"⟩ : Decl) ∈
      ImGui_ImplVulkan_InitInfo ∧
    (∀ f ∈ prototypes cimgui_impl, ∀ t ∈ f.parts, t.name ≠ "VkResult") ∧
    (∀ s ∈ structDefs cimgui_impl, ∀ d ∈ s.2, ∀ t ∈ d.ty.parts, t.name = "VkResult" →
      s.1 = "ImGui_ImplVulkan_InitInfo" ∧ d.name = "CheckVkResultFn") := by
  decide

/-! ## Initialisation, teardown and new-frame entry points -/

/-- C3: the prototypes whose name contains `_Init` are the six
`ImGui_ImplSDL2_InitFor*` functions and `ImGui_ImplVulkan_Init`, and each returns
`bool`; the prototypes whose name ends in `_Shutdown` or `_NewFrame` are the two
`Shutdown` and the two `NewFrame` functions, and each returns `void` and has the
parameter list `(void)`. -/
theorem init_returns_bool_teardown_returns_void :
    namesWhere cimgui_impl (NameContains "_Init") =
      [ "ImGui_ImplSDL2_InitForOpenGL", "ImGui_ImplSDL2_InitForVulkan",
        "ImGui_ImplSDL2_InitForD3D", "ImGui_ImplSDL2_InitForMetal",
        "ImGui_ImplSDL2_InitForSDLRenderer", "ImGui_ImplSDL2_InitForOther",
        "ImGui_ImplVulkan_Init" ] ∧
    (∀ f ∈ prototypes cimgui_impl, NameContains "_Init" f.name → f.ret = ty "bool") ∧
    namesWhere cimgui_impl
        (fun n => NameEndsIn "_Shutdown" n ∨ NameEndsIn "_NewFrame" n) =
      [ "ImGui_ImplSDL2_Shutdown", "ImGui_ImplSDL2_NewFrame",
        "ImGui_ImplVulkan_Shutdown", "ImGui_ImplVulkan_NewFrame" ] ∧
    (∀ f ∈ prototypes cimgui_impl,
      NameEndsIn "_Shutdown" f.name ∨ NameEndsIn "_NewFrame" f.name →
        f.ret = ty "void" ∧ f.params = .void) := by
  decide

/-! ## The kinds of item in the file -/

/-- C4, as stated, fails: line 10, `typedef union SDL_Event SDL_Event;`, is a
file-scope item of the header that is none of the four kinds (it forward-declares a
union, not a struct), and so are the two `#include` lines; these three are the only
items outside the four kinds. -/
theorem item_outside_the_four_kinds :
    Item.typedefTag .unionK "SDL_Event" "SDL_Event" ∈ cimgui_impl ∧
    (Item.typedefTag .unionK "SDL_Event" "SDL_Event").isOfFourKinds = false ∧
    ¬ (∀ i ∈ cimgui_impl, i.isOfFourKinds = true) ∧
    cimgui_impl.filter (fun i => !i.isOfFourKinds) =
      [ .directive "#include <SDL2/SDL.h>",
        .directive "#include <vulkan/vulkan.h>",
        .typedefTag .unionK "SDL_Event" "SDL_Event" ] := by
  decide

/-- C4, amended: every file-scope item of the header is a preprocessor directive, an
enumeration, a forward declaration (or typedef) of a struct or of a union, a struct
definition, or a function prototype; the header defines no function with a body and
declares no file-scope variable. -/
theorem only_declarations :
    (∀ i ∈ cimgui_impl,
      i.isDirective = true ∨ i.isEnum = true ∨ i.isForward .structK = true ∨
      i.isForward .unionK = true ∨ i.isStructDef = true ∨ i.isPrototype = true) ∧
    definedFunctions cimgui_impl = [] ∧
    globals cimgui_impl = [] := by
  decide

/-! ## The entry-point families -/

/-- C5: each of the patterns `*_Init*`, `*_NewFrame`, `*_RenderDrawData`,
`*_Shutdown`, `*_AddTexture`, `*_RemoveTexture`, `*_CreateFontsTexture` is matched by
at least one prototype, and each backend (names starting `ImGui_ImplSDL2_`, names
starting `ImGui_ImplVulkan_`) declares at least one `*_Init*` function, exactly one
`*_NewFrame` function and exactly one `*_Shutdown` function. -/
theorem entry_point_families_present :
    (∃ f ∈ prototypes cimgui_impl, NameContains "_Init" f.name) ∧
    (∀ pat ∈ [ "_NewFrame", "_RenderDrawData", "_Shutdown", "_AddTexture",
               "_RemoveTexture", "_CreateFontsTexture" ],
      ∃ f ∈ prototypes cimgui_impl, NameEndsIn pat f.name) ∧
    (∀ backend ∈ ["ImGui_ImplSDL2_", "ImGui_ImplVulkan_"],
      1 ≤ (namesWhere cimgui_impl
            (fun n => NameStartsWith backend n ∧ NameContains "_Init" n)).length ∧
      (namesWhere cimgui_impl
            (fun n => NameStartsWith backend n ∧ NameEndsIn "_NewFrame" n)).length = 1 ∧
      (namesWhere cimgui_impl
            (fun n => NameStartsWith backend n ∧ NameEndsIn "_Shutdown" n)).length = 1) := by
  decide

/-! ## Opaque structs and defined structs -/

/-- C6: `SDL_Window`, `SDL_Renderer` and `_SDL_GameController` are each declared
(`struct T;`) and typedef'd (`typedef struct T T;`) and nowhere given a field list;
the structs defined with a field list are exactly `ImGui_ImplVulkan_InitInfo`,
`ImGui_ImplVulkanH_Frame`, `ImGui_ImplVulkanH_FrameSemaphores` and
`ImGui_ImplVulkanH_Window` (listed in source order), each defined once. -/
theorem opaque_and_defined_structs :
    (∀ t ∈ ["SDL_Window", "SDL_Renderer", "_SDL_GameController"],
      Item.tagDecl .structK t ∈ cimgui_impl ∧
      Item.typedefTag .structK t t ∈ cimgui_impl ∧
      t ∉ definedStructs cimgui_impl) ∧
    definedStructs cimgui_impl =
      [ "ImGui_ImplVulkan_InitInfo", "ImGui_ImplVulkanH_Frame",
        "ImGui_ImplVulkanH_FrameSemaphores", "ImGui_ImplVulkanH_Window" ] ∧
    structDefs cimgui_impl =
      [ ("ImGui_ImplVulkan_InitInfo", ImGui_ImplVulkan_InitInfo),
        ("ImGui_ImplVulkanH_Frame", ImGui_ImplVulkanH_Frame),
        ("ImGui_ImplVulkanH_FrameSemaphores", ImGui_ImplVulkanH_FrameSemaphores),
        ("ImGui_ImplVulkanH_Window", ImGui_ImplVulkanH_Window) ] := by
  decide

/-! ## Flat records -/

/-- C7: no field of a struct defined in the header holds by value a struct defined in
the header (the by-value containment relation is empty), and the only references
between header-defined structs are the two pointer fields of
`ImGui_ImplVulkanH_Window`: `ImGui_ImplVulkanH_Frame* Frames` and
`ImGui_ImplVulkanH_FrameSemaphores* FrameSemaphores`. -/
theorem records_are_flat :
    (∀ s ∈ structDefs cimgui_impl, ∀ d ∈ s.2, byValueStruct cimgui_impl d = none) ∧
    containment cimgui_impl = [] ∧
    structRefs cimgui_impl =
      [ ("ImGui_ImplVulkanH_Window", "Frames",
          ptr "ImGui_ImplVulkanH_Frame", "ImGui_ImplVulkanH_Frame"),
        ("ImGui_ImplVulkanH_Window", "FrameSemaphores",
          ptr "ImGui_ImplVulkanH_FrameSemaphores", "ImGui_ImplVulkanH_FrameSemaphores") ] := by
  decide

/-! ## The gamepad-mode enumeration -/

/-- C8: `ImGui_ImplSDL2_GamepadMode` is the one enumeration of the header; it has exactly
three enumerators, `..._AutoFirst`, `..._AutoAll`, `..._Manual` in this order, none
with an explicit initialiser; under C enumerator numbering their values are 0, 1, 2,
pairwise distinct, so the map from enumerator to value is injective with range
exactly 0, 1, 2. -/
theorem gamepad_mode_values :
    enums cimgui_impl = [("ImGui_ImplSDL2_GamepadMode", ImGui_ImplSDL2_GamepadMode)] ∧
    ImGui_ImplSDL2_GamepadMode.map (fun e => e.name) =
      [ "ImGui_ImplSDL2_GamepadMode_AutoFirst", "ImGui_ImplSDL2_GamepadMode_AutoAll",
        "ImGui_ImplSDL2_GamepadMode_Manual" ] ∧
    (∀ e ∈ ImGui_ImplSDL2_GamepadMode, e.init = none) ∧
    enumValues ImGui_ImplSDL2_GamepadMode =
      [ ("ImGui_ImplSDL2_GamepadMode_AutoFirst", 0),
        ("ImGui_ImplSDL2_GamepadMode_AutoAll", 1),
        ("ImGui_ImplSDL2_GamepadMode_Manual", 2) ] ∧
    ((enumValues ImGui_ImplSDL2_GamepadMode).map Prod.snd).Nodup ∧
    (∀ a ∈ enumValues ImGui_ImplSDL2_GamepadMode,
      ∀ b ∈ enumValues ImGui_ImplSDL2_GamepadMode, a.2 = b.2 → a.1 = b.1) ∧
    (enumValues ImGui_ImplSDL2_GamepadMode).map Prod.snd = [0, 1, 2] := by
  decide

end CImguiImpl
